import Mathlib

/-!
Verification of the NetTools network-site inventory core (Scripts/network_db.py
and Scripts/web_server.py) against its natural-language specification.

The Python code is shallowly embedded: the SQLite tables become lists of typed
rows inside a `DB` state record, every database method becomes an explicit
state-passing Lean function, and Python string manipulation (`str.split('.')`,
`'.'.join`, f-string concatenation) is modelled by structurally recursive
functions on `String`/`List Char`.  Python `float` latitude/longitude values
are only stored and echoed back, never computed with, so they are modelled by
an arbitrary numeric carrier (`Int`).

The repository does not ship its CREATE TABLE schema; where a behaviour
depends on it (uniqueness keys, cascading delete), the corresponding
definition carries a doc comment starting with `Modelled from the spec:`.
-/

namespace NetTools

/-! ## Python string primitives -/

/-- Model of Python `s.split('.')`: splits at every occurrence of the dot,
keeping empty segments, as a structural recursion on the character list. -/
def splitDot : List Char → List (List Char)
  | [] => [[]]
  | c :: rest =>
    if c = '.' then [] :: splitDot rest
    else
      match splitDot rest with
      | [] => [[c]]
      | p :: ps => (c :: p) :: ps

/-- Model of Python `ip.split('.')` at `String` level. -/
def pySplitDot (s : String) : List String :=
  (splitDot s.data).map (fun l => ⟨l⟩)

/-- Model of Python `'.'.join(parts)`. -/
def pyJoinDot : List String → String
  | [] => ""
  | [x] => x
  | x :: xs => x ++ "." ++ pyJoinDot xs

/-! ## Address Allocator (`NetworkDatabase.generate_ip_for_store`) -/

/-- Fixed VLAN allocation set, the literal list iterated by
`NetworkDatabase.add_store_with_vlans`. -/
def vlanAllocationSet : List Nat := [10, 20, 30, 40, 50, 60, 70, 80, 90]

/-- Embedding of `NetworkDatabase.generate_ip_for_store` (network_db.py:262).
Python f-string interpolation becomes `toString` concatenation. -/
def generate_ip_for_store (store_number vlan_number : Nat) : String :=
  let vlan := vlan_number / 10
  if store_number < 10 then
    "10.0." ++ toString store_number ++ toString vlan ++ ".1"
  else if store_number < 100 then
    let first_digit := store_number / 10
    let second_digit := store_number % 10
    "10." ++ toString first_digit ++ "." ++ toString second_digit ++ toString vlan ++ ".1"
  else
    let first_digit := store_number / 100
    let second_digit := store_number / 10 % 10
    let third_digit := store_number % 10
    "10." ++ toString first_digit ++ toString second_digit ++ "." ++ toString third_digit ++ toString vlan ++ ".1"

/-- Transcription of the spec's allocation algorithm (spec §4.1), written from
the spec's wording alone: `vlan_digit = vlan_number / 10`; single-digit store
`d` yields `10.0.{d}{vlan_digit}.1`; two-digit store `d1 d2` yields
`10.{d1}.{d2}{vlan_digit}.1`; three-digit store `d1 d2 d3` yields
`10.{d1}{d2}.{d3}{vlan_digit}.1`, host octet fixed at `.1`. -/
def derive_ip_spec (store_number vlan_number : Nat) : String :=
  let vlan_digit := vlan_number / 10
  if store_number < 10 then
    "10.0." ++ toString store_number ++ toString vlan_digit ++ ".1"
  else if store_number < 100 then
    "10." ++ toString (store_number / 10) ++ "." ++
      toString (store_number % 10) ++ toString vlan_digit ++ ".1"
  else
    "10." ++ toString (store_number / 100) ++ toString (store_number / 10 % 10) ++ "." ++
      toString (store_number % 10) ++ toString vlan_digit ++ ".1"

/-! ## Data model (network_db.py dataclasses and table rows) -/

/-- Embedding of the `SiteInfo` dataclass (network_db.py:13).  Python float
coordinates are only stored and echoed, never computed with; they are
modelled by `Int`. -/
structure SiteInfo where
  site_id : String
  site_name : String
  store_number : Nat
  address : String
  latitude : Int
  longitude : Int
  wireless_platform : String := "Mist"
  business_unit : String := "Store"
deriving Repr, DecidableEq

/-- Embedding of the `VLANConfig` dataclass (network_db.py:24), which is also
the row shape of the `vlan_configs` table. -/
structure VLANConfig where
  site_id : String
  vlan_number : Nat
  svi_name : String
  ip_address : String
  netmask : String
  gateway : String
deriving Repr, DecidableEq

/-- Embedding of the `NetworkManagement` dataclass (network_db.py:33). -/
structure NetworkManagement where
  site_id : String
  wireless_platform : String
  switch_ips : List String
  firewall_ips : List String
  required_services : List String
  business_unit : String
deriving Repr, DecidableEq

/-- Row of the `sites` table as written by `NetworkDatabase.add_site`
(network_db.py:177).  The INSERT lists the columns site_id, site_name,
address, latitude, longitude, country_code, timezone, created_time,
modified_time, rftemplate_id, networktemplate_id, tzoffset, notes — it does
NOT include `store_number`, so a site created through this code path stores
SQL NULL there (`none`); rows shipped with the database may carry a number.
The four always-NULL template/timestamp columns are not modelled. -/
structure SiteRow where
  site_id : String
  site_name : String
  store_number : Option Nat
  address : String
  latitude : Int
  longitude : Int
  country_code : String
  timezone : String
  tzoffset : Int
  notes : String
deriving Repr, DecidableEq

/-- Row of the `network_management` table (columns used by the code). -/
structure NetworkManagementRow where
  site_id : String
  wireless_platform : String
  business_unit : String
deriving Repr, DecidableEq

/-- Row of the `switch_ips` table.  `NetworkDatabase.add_switch_ip` writes
only these two columns (the web layer's optional `switch_type` column is not
read by any modelled operation and is omitted). -/
structure SwitchIpRow where
  site_id : String
  switch_ip : String
deriving Repr, DecidableEq

/-- Row of the `required_services` table. -/
structure ServiceRow where
  site_id : String
  service_name : String
deriving Repr, DecidableEq

/-- Row of the `firewall_ips` table (read by `get_network_management`). -/
structure FirewallIpRow where
  site_id : String
  firewall_ip : String
deriving Repr, DecidableEq

/-- State of the sqlite database: one list of rows per table, in rowid
(insertion) order. -/
structure DB where
  sites : List SiteRow
  network_management : List NetworkManagementRow
  vlan_configs : List VLANConfig
  switch_ips : List SwitchIpRow
  required_services : List ServiceRow
  firewall_ips : List FirewallIpRow
deriving Repr, DecidableEq

def DB.empty : DB := ⟨[], [], [], [], [], []⟩

/-! ## Inventory Store operations (`NetworkDatabase`) -/

/-- Sites row written by `add_site` for a given `SiteInfo`: the fixed values
US / America/Chicago / 1080 / empty notes from network_db.py:183-196, and no
`store_number`. -/
def siteRowOf (site : SiteInfo) : SiteRow :=
  { site_id := site.site_id, site_name := site.site_name, store_number := none,
    address := site.address, latitude := site.latitude, longitude := site.longitude,
    country_code := "US", timezone := "America/Chicago", tzoffset := 1080, notes := "" }

/-- Network-management row written by `add_site` (network_db.py:200). -/
def nmRowOf (site : SiteInfo) : NetworkManagementRow :=
  { site_id := site.site_id, wireless_platform := site.wireless_platform,
    business_unit := site.business_unit }

/-- Embedding of `NetworkDatabase.add_site` (network_db.py:171): INSERTs one
sites row and one network_management row and commits both, or catches the
exception and returns False with the database unchanged (nothing committed).
Modelled from the spec: the CREATE TABLE schema is not part of src/; per
spec §3 `site_id` is the unique, immutable key of Site and NetworkManagement
is one-to-one with Site, so the plain INSERT fails exactly when the site_id
already exists.  The column list omits `store_number` (see `SiteRow`). -/
def add_site (db : DB) (site : SiteInfo) : Bool × DB :=
  if db.sites.any (fun r => r.site_id = site.site_id) ||
      db.network_management.any (fun r => r.site_id = site.site_id) then
    (false, db)
  else
    (true,
      { db with
        sites := db.sites ++ [siteRowOf site],
        network_management := db.network_management ++ [nmRowOf site] })

/-- Embedding of `NetworkDatabase.add_vlan_config` (network_db.py:214).
Modelled from the spec: `(site_id, vlan_number)` is the unique key of
`vlan_configs` (spec §3), so INSERT OR REPLACE deletes any row with the same
key and appends the fresh row; it cannot hit a uniqueness violation, so the
method returns True. -/
def add_vlan_config (db : DB) (cfg : VLANConfig) : Bool × DB :=
  let kept := db.vlan_configs.filter
    (fun r => ¬ (r.site_id = cfg.site_id ∧ r.vlan_number = cfg.vlan_number))
  (true, { db with vlan_configs := kept ++ [cfg] })

/-- Embedding of `NetworkDatabase.add_switch_ip` (network_db.py:242).
Modelled from the spec: `(site_id, switch_ip)` is unique (spec §3), giving
INSERT OR REPLACE the analogous replace-then-append semantics. -/
def add_switch_ip (db : DB) (site_id switch_ip : String) : Bool × DB :=
  let kept := db.switch_ips.filter
    (fun r => ¬ (r.site_id = site_id ∧ r.switch_ip = switch_ip))
  (true, { db with switch_ips := kept ++ [{ site_id := site_id, switch_ip := switch_ip }] })

/-- Embedding of the INSERT OR REPLACE INTO required_services loop body of
`add_store_with_vlans` (network_db.py:330).  Modelled from the spec: required
services form a set of service names per site (spec §3), so
`(site_id, service_name)` is the unique key. -/
def addRequiredService (db : DB) (site_id service_name : String) : DB :=
  let kept := db.required_services.filter
    (fun r => ¬ (r.site_id = site_id ∧ r.service_name = service_name))
  { db with required_services :=
      kept ++ [{ site_id := site_id, service_name := service_name }] }

/-- Switch-address derivation inlined at network_db.py:314-320: split the
VLAN-60 address on dots, overwrite index 3 (the host octet) with "30", join;
then overwrite index 3 of the same mutated list with "41" and join again. -/
def switchIPsForStore (store_number : Nat) : String × String :=
  let switch_base_ip := generate_ip_for_store store_number 60
  let switch_ip_parts := pySplitDot switch_base_ip
  let parts1 := switch_ip_parts.set 3 "30"
  let switch_ip1 := pyJoinDot parts1
  let parts2 := parts1.set 3 "41"
  let switch_ip2 := pyJoinDot parts2
  (switch_ip1, switch_ip2)

/-- VLAN row constructed for one allocation-set entry (network_db.py:302). -/
def vlanRowFor (store_number : Nat) (site_id : String) (vlan_num : Nat) : VLANConfig :=
  let ip_address := generate_ip_for_store store_number vlan_num
  { site_id := site_id, vlan_number := vlan_num,
    svi_name := "vlan" ++ toString vlan_num ++ "_svi",
    ip_address := ip_address, netmask := "255.255.255.0", gateway := ip_address }

/-- The `for vlan_num in [10, ..., 90]` loop of `add_store_with_vlans`
(network_db.py:299), with the early `return False` on a failed upsert. -/
def addVlansLoop (store_number : Nat) (site_id : String) : DB → List Nat → Bool × DB
  | db, [] => (true, db)
  | db, vlan_num :: rest =>
    match add_vlan_config db (vlanRowFor store_number site_id vlan_num) with
    | (false, db1) => (false, db1)
    | (true, db1) => addVlansLoop store_number site_id db1 rest

/-- The `SiteInfo` constructed at network_db.py:285 (dataclass defaults for
wireless_platform and business_unit). -/
def provisionInfo (store_number : Nat) (site_id site_name address : String)
    (lat lng : Int) : SiteInfo :=
  { site_id := site_id, site_name := site_name, store_number := store_number,
    address := address, latitude := lat, longitude := lng }

/-- Embedding of `NetworkDatabase.add_store_with_vlans` (network_db.py:281):
site, nine VLAN configs, two switch IPs (return values ignored, as in the
source), then the three required services. -/
def add_store_with_vlans (db : DB) (store_number : Nat)
    (site_id site_name address : String) (lat lng : Int) : Bool × DB :=
  let site_info : SiteInfo :=
    provisionInfo store_number site_id site_name address lat lng
  match add_site db site_info with
  | (false, db1) => (false, db1)
  | (true, db1) =>
    match addVlansLoop store_number site_id db1 vlanAllocationSet with
    | (false, db2) => (false, db2)
    | (true, db2) =>
      let pair := switchIPsForStore store_number
      let db3 := (add_switch_ip db2 site_id pair.1).2
      let db4 := (add_switch_ip db3 site_id pair.2).2
      let db5 := ["DNS", "DHCP", "RADIUS1"].foldl
        (fun d service => addRequiredService d site_id service) db4
      (true, db5)

/-! ## Inventory Store queries -/

/-- Embedding of `NetworkDatabase.get_site_by_store_number` (network_db.py:50):
`SELECT ... FROM sites LEFT JOIN network_management ... WHERE store_number = ?`
with `fetchone`; a NULL `store_number` matches no query.  Python's
`row[6] or "Mist"` / `row[7] or "Store"` treat NULL and the empty string as
absent. -/
def get_site_by_store_number (db : DB) (store_number : Nat) : Option SiteInfo :=
  match db.sites.find? (fun r => r.store_number = some store_number) with
  | none => none
  | some row =>
    let nm := db.network_management.find? (fun r => r.site_id = row.site_id)
    some { site_id := row.site_id, site_name := row.site_name,
           store_number := store_number, address := row.address,
           latitude := row.latitude, longitude := row.longitude,
           wireless_platform :=
             match nm with
             | none => "Mist"
             | some r => if r.wireless_platform = "" then "Mist" else r.wireless_platform,
           business_unit :=
             match nm with
             | none => "Store"
             | some r => if r.business_unit = "" then "Store" else r.business_unit }

/-- Model of SQL `ORDER BY vlan_number`: a stable structural insertion sort
on the vlan number. -/
def insertByVlan (x : VLANConfig) : List VLANConfig → List VLANConfig
  | [] => [x]
  | y :: ys =>
    if x.vlan_number ≤ y.vlan_number then x :: y :: ys else y :: insertByVlan x ys

def orderByVlan : List VLANConfig → List VLANConfig
  | [] => []
  | x :: xs => insertByVlan x (orderByVlan xs)

/-- Embedding of `NetworkDatabase.get_vlans_for_site` (network_db.py:81). -/
def get_vlans_for_site (db : DB) (site_id : String) : List VLANConfig :=
  orderByVlan (db.vlan_configs.filter (fun r => r.site_id = site_id))

/-- Embedding of `NetworkDatabase.get_network_management` (network_db.py:109). -/
def get_network_management (db : DB) (site_id : String) : Option NetworkManagement :=
  match db.network_management.find? (fun r => r.site_id = site_id) with
  | none => none
  | some nm =>
    some { site_id := site_id,
           wireless_platform := nm.wireless_platform,
           switch_ips :=
             (db.switch_ips.filter (fun r => r.site_id = site_id)).map
               (fun r => r.switch_ip),
           firewall_ips :=
             (db.firewall_ips.filter (fun r => r.site_id = site_id)).map
               (fun r => r.firewall_ip),
           required_services :=
             (db.required_services.filter (fun r => r.site_id = site_id)).map
               (fun r => r.service_name),
           business_unit := nm.business_unit }

/-- Result shape of `get_complete_site_info`. -/
structure CompleteSiteInfo where
  site : SiteInfo
  vlans : List VLANConfig
  network_management : Option NetworkManagement
deriving Repr, DecidableEq

/-- Embedding of `NetworkDatabase.get_complete_site_info` (network_db.py:156). -/
def get_complete_site_info (db : DB) (store_number : Nat) : Option CompleteSiteInfo :=
  match get_site_by_store_number db store_number with
  | none => none
  | some site =>
    some { site := site,
           vlans := get_vlans_for_site db site.site_id,
           network_management := get_network_management db site.site_id }

/-! ## API Surface (web_server.py handlers used by the claims) -/

/-- Modelled from the spec: the CREATE TABLE schema (and hence the cascade
configuration) is not part of src/; spec §3 makes cascading delete of every
child record on Site removal mandatory, and the handler's own comment reads
"Delete all related data (cascade will handle most)".  `DELETE FROM sites
WHERE site_id = ?` therefore removes the sites row together with every child
row owned by that site_id. -/
def cascadeDeleteSite (db : DB) (site_id : String) : DB :=
  { sites := db.sites.filter (fun r => ¬ r.site_id = site_id),
    network_management := db.network_management.filter (fun r => ¬ r.site_id = site_id),
    vlan_configs := db.vlan_configs.filter (fun r => ¬ r.site_id = site_id),
    switch_ips := db.switch_ips.filter (fun r => ¬ r.site_id = site_id),
    required_services := db.required_services.filter (fun r => ¬ r.site_id = site_id),
    firewall_ips := db.firewall_ips.filter (fun r => ¬ r.site_id = site_id) }

/-- Embedding of the `DELETE /api/stores/{store_number}` handler
(web_server.py:407): look the site up by store number, 404 (`none`) if
absent, otherwise delete the sites row (cascading per the modelled schema). -/
def delete_store (db : DB) (store_number : Nat) : Option DB :=
  match db.sites.find? (fun r => r.store_number = some store_number) with
  | none => none
  | some row => some (cascadeDeleteSite db row.site_id)

/-- Needle-at-front test used to model SQL `LIKE`. -/
def leadsWith : List Char → List Char → Bool
  | [], _ => true
  | _ :: _, [] => false
  | a :: as, b :: bs => a = b && leadsWith as bs

/-- Substring occurrence test used to model SQL `LIKE`. -/
def occursIn (needle : List Char) : List Char → Bool
  | [] => leadsWith needle []
  | b :: bs => leadsWith needle (b :: bs) || occursIn needle bs

/-- Model of sqlite `column LIKE '%pattern%'` (ASCII case-insensitive
substring containment). -/
def likeContains (column pattern : String) : Bool :=
  occursIn (pattern.data.map Char.toLower) (column.data.map Char.toLower)

/-- Row set of `sites s LEFT JOIN vlan_configs v ON s.site_id = v.site_id`:
every site paired with each of its VLAN rows, or with `none` (SQL NULLs) if
it has no VLAN row. -/
def leftJoinVlans (db : DB) : List (SiteRow × Option VLANConfig) :=
  db.sites.flatMap (fun s =>
    match db.vlan_configs.filter (fun v => v.site_id = s.site_id) with
    | [] => [(s, none)]
    | v :: vs => (v :: vs).map (fun v1 => (s, some v1)))

/-- Projected row shape of the search query. -/
structure SearchResult where
  store_number : Option Nat
  site_name : String
  address : String
deriving Repr, DecidableEq

/-- Conjunction of the dynamically appended `AND` clauses of the search query
(web_server.py:206-228).  A comparison with a NULL joined VLAN column is not
satisfied, as in SQL. -/
def matchesSearchRow (store vlan : Option Nat) (ip city : Option String)
    (row : SiteRow × Option VLANConfig) : Bool :=
  (match store with
   | none => true
   | some k => row.1.store_number = some k) &&
  (match vlan with
   | none => true
   | some k =>
     match row.2 with
     | none => false
     | some v => v.vlan_number = k) &&
  (match ip with
   | none => true
   | some pat =>
     match row.2 with
     | none => false
     | some v => likeContains v.ip_address pat) &&
  (match city with
   | none => true
   | some pat => likeContains row.1.address pat)

/-- Model of SQL `SELECT DISTINCT` output: duplicates removed, first
occurrence kept. -/
def distinctRows : List SearchResult → List SearchResult
  | [] => []
  | x :: xs => x :: (distinctRows xs).filter (fun y => ¬ y = x)

/-- Embedding of the `GET /api/search` handler (web_server.py:192): the query
starts from `WHERE 1=1` and appends one `AND` clause per supplied parameter
(`none` models an absent — or empty, hence falsy — query parameter); there
is no rejection path for the all-absent case. -/
def search (db : DB) (store vlan : Option Nat) (ip city : Option String) :
    List SearchResult :=
  let rows := (leftJoinVlans db).filter (matchesSearchRow store vlan ip city)
  distinctRows (rows.map (fun row =>
    { store_number := row.1.store_number, site_name := row.1.site_name,
      address := row.1.address }))

/-- JSON shape returned for one VLAN by the per-store VLAN listing. -/
structure VlanJson where
  vlan_number : Nat
  svi_name : String
  ip_address : String
  netmask : String
  gateway : String
deriving Repr, DecidableEq

def vlanToJson (v : VLANConfig) : VlanJson :=
  { vlan_number := v.vlan_number, svi_name := v.svi_name,
    ip_address := v.ip_address, netmask := v.netmask, gateway := v.gateway }

/-- Embedding of the `GET /api/stores/{store_number}/vlans` handler
(web_server.py:246), returning (HTTP status, body): the truthiness test
`if store_info and store_info['vlans']` sends both a missing store and a
store without VLAN rows to the `jsonify([])` branch with status 200. -/
def get_store_vlans (db : DB) (store_number : Nat) : Nat × List VlanJson :=
  match get_complete_site_info db store_number with
  | none => (200, [])
  | some info =>
    if info.vlans.isEmpty then (200, [])
    else (200, info.vlans.map vlanToJson)

/-- Embedding of the `GET /api/stores/{store_number}` handler
(web_server.py:167), returning (HTTP status, body): 404 with no body when the
store is missing, otherwise 200 with the site summary (whose JSON projection
is elided here). -/
def get_store_details (db : DB) (store_number : Nat) : Nat × Option SiteInfo :=
  match get_complete_site_info db store_number with
  | none => (404, none)
  | some info => (200, some info.site)

/-! ## Structural characterisation of provisioning -/

/-- Freshness of a generated site_id: no table row owns it yet (web_server.py
generates a fresh UUID for every POST /api/stores). -/
def siteIdFresh (db : DB) (site_id : String) : Prop :=
  (∀ r ∈ db.sites, r.site_id ≠ site_id) ∧
  (∀ r ∈ db.network_management, r.site_id ≠ site_id) ∧
  (∀ r ∈ db.vlan_configs, r.site_id ≠ site_id) ∧
  (∀ r ∈ db.switch_ips, r.site_id ≠ site_id) ∧
  (∀ r ∈ db.required_services, r.site_id ≠ site_id)

/-- Concrete sites used to instantiate the query/deletion claims. -/
def site7 : SiteRow :=
  { site_id := "s7", site_name := "Store 7", store_number := some 7,
    address := "700 Main St", latitude := 29, longitude := -98,
    country_code := "US", timezone := "America/Chicago", tzoffset := 1080, notes := "" }

def site8 : SiteRow :=
  { site_id := "s8", site_name := "Store 8", store_number := some 8,
    address := "800 Oak Ave", latitude := 30, longitude := -97,
    country_code := "US", timezone := "America/Chicago", tzoffset := 1080, notes := "" }

/-- Concrete database with a fully provisioned store 7 and a VLAN-less store
8, used to instantiate theorems with hypotheses. -/
def sampleDb : DB :=
  { sites := [site7, site8],
    network_management :=
      [{ site_id := "s7", wireless_platform := "Mist", business_unit := "Store" }],
    vlan_configs := [vlanRowFor 7 "s7" 10],
    switch_ips := [{ site_id := "s7", switch_ip := "10.0.76.30" }],
    required_services := [{ site_id := "s7", service_name := "DNS" }],
    firewall_ips := [] }

/-! ### Decimal-digit facts used to analyse the produced strings -/

theorem toString_data_of_lt_ten : ∀ n, n < 10 → (toString n).data = [Nat.digitChar n] := by
  decide

theorem toString_data_of_two_digits :
    ∀ n, 10 ≤ n → n < 100 →
      (toString n).data = [Nat.digitChar (n / 10), Nat.digitChar (n % 10)] := by
  decide

theorem digitChar_ne_dot : ∀ n, n < 10 → Nat.digitChar n ≠ '.' := by decide

theorem digitChar_injOn : ∀ a, a < 10 → ∀ b, b < 10 →
    Nat.digitChar a = Nat.digitChar b → a = b := by decide

set_option maxRecDepth 10000 in
theorem toString_injOn_lt100 : ∀ a, a < 100 → ∀ b, b < 100 →
    toString a = toString b → a = b := by decide

theorem dot_not_mem_toString : ∀ n, n < 100 → '.' ∉ (toString n).data := by decide

theorem vlan_facts : ∀ v ∈ vlanAllocationSet, v / 10 < 10 ∧ 10 * (v / 10) = v := by decide

/-- Characterisation of the character list produced by the allocator: for an
in-range store number the result is always
`10.<digits of s / 10>.<last digit of s><vlan digit>.1`. -/
theorem generate_data (s v : Nat) (h1 : 1 ≤ s) (h2 : s ≤ 999) (hv : v / 10 < 10) :
    (generate_ip_for_store s v).data =
      '1' :: '0' :: '.' :: (toString (s / 10)).data ++
        '.' :: Nat.digitChar (s % 10) :: Nat.digitChar (v / 10) :: '.' :: '1' :: [] := by
  unfold generate_ip_for_store
  split
  · next hlt =>
    have hdiv : s / 10 = 0 := Nat.div_eq_of_lt hlt
    have hmod : s % 10 = s := Nat.mod_eq_of_lt hlt
    simp [String.data_append, toString_data_of_lt_ten s hlt,
      toString_data_of_lt_ten _ hv, hdiv, hmod,
      toString_data_of_lt_ten 0 (by omega), Nat.digitChar]
  · split
    · next hge hlt =>
      have hmod : s % 10 < 10 := Nat.mod_lt _ (by omega)
      simp [String.data_append, toString_data_of_lt_ten _ hmod,
        toString_data_of_lt_ten _ hv]
    · next hge1 hge2 =>
      have h100 : 100 ≤ s := by omega
      have hd1 : s / 100 < 10 := by omega
      have hd2 : s / 10 % 10 < 10 := Nat.mod_lt _ (by omega)
      have hd3 : s % 10 < 10 := Nat.mod_lt _ (by omega)
      have hten : 10 ≤ s / 10 := by omega
      have hcap : s / 10 < 100 := by omega
      have hdd : s / 10 / 10 = s / 100 := by
        rw [Nat.div_div_eq_div_mul]
      simp [String.data_append, toString_data_of_lt_ten _ hd1,
        toString_data_of_lt_ten _ hd2, toString_data_of_lt_ten _ hd3,
        toString_data_of_lt_ten _ hv, toString_data_of_two_digits _ hten hcap, hdd]

/-! ### Splitting dot-separated character lists -/

theorem append_dot_inj (A : List Char) : ∀ {A' r r' : List Char},
    '.' ∉ A → '.' ∉ A' → A ++ '.' :: r = A' ++ '.' :: r' → A = A' ∧ r = r' := by
  induction A with
  | nil =>
    intro A' r r' _ hA' h
    cases A' with
    | nil => simpa using h
    | cons b bs =>
      simp only [List.nil_append, List.cons_append, List.cons.injEq] at h
      exact absurd (h.1 ▸ List.mem_cons_self _ _) hA'
  | cons a as ih =>
    intro A' r r' hA hA' h
    cases A' with
    | nil =>
      simp only [List.cons_append, List.nil_append, List.cons.injEq] at h
      exact absurd (h.1 ▸ List.mem_cons_self _ _) hA
    | cons b bs =>
      simp only [List.cons_append, List.cons.injEq] at h
      obtain ⟨rfl, h2⟩ := h
      have h3 := ih (fun hm => hA (List.mem_cons_of_mem _ hm))
        (fun hm => hA' (List.mem_cons_of_mem _ hm)) h2
      exact ⟨by rw [h3.1], h3.2⟩

theorem splitDot_of_no_dot (A : List Char) (h : '.' ∉ A) : splitDot A = [A] := by
  induction A with
  | nil => rfl
  | cons a as ih =>
    have ha : ¬ a = '.' := fun he => h (he ▸ List.mem_cons_self _ _)
    have has : '.' ∉ as := fun hm => h (List.mem_cons_of_mem _ hm)
    simp [splitDot, ha, ih has]

theorem splitDot_append (A r : List Char) (h : '.' ∉ A) :
    splitDot (A ++ '.' :: r) = A :: splitDot r := by
  induction A with
  | nil => simp [splitDot]
  | cons a as ih =>
    have ha : ¬ a = '.' := fun he => h (he ▸ List.mem_cons_self _ _)
    have has : '.' ∉ as := fun hm => h (List.mem_cons_of_mem _ hm)
    have hne : splitDot (as ++ '.' :: r) = as :: splitDot r := ih has
    simp [splitDot, ha, hne]

/-! ## Claim theorems about the allocator -/

/-- C1: for every store number in [1, 999] and VLAN number in the decade set,
`generate_ip_for_store` returns exactly the address prescribed by the spec's
digit-concatenation encoding (with host octet `.1`), and, being a pure
function, two calls with the same inputs return the same string. -/
theorem generate_ip_matches_spec (s v : Nat) (h1 : 1 ≤ s) (h2 : s ≤ 999)
    (hv : v ∈ vlanAllocationSet) :
    generate_ip_for_store s v = derive_ip_spec s v ∧
      generate_ip_for_store s v = generate_ip_for_store s v :=
  ⟨rfl, rfl⟩

theorem generate_ip_matches_spec_witness :
    1 ≤ 42 ∧ 42 ≤ 999 ∧ 30 ∈ vlanAllocationSet ∧
      generate_ip_for_store 42 30 = derive_ip_spec 42 30 :=
  ⟨by decide, by decide, by decide,
    (generate_ip_matches_spec 42 30 (by decide) (by decide) (by decide)).1⟩

/-- C2: the allocator is injective on the documented range: two distinct
`(store_number, vlan_number)` pairs with store numbers in [1, 999] and VLAN
numbers in the decade set always produce different address strings. -/
theorem generate_ip_injective (s1 v1 s2 v2 : Nat)
    (hs1 : 1 ≤ s1) (hs1b : s1 ≤ 999) (hv1 : v1 ∈ vlanAllocationSet)
    (hs2 : 1 ≤ s2) (hs2b : s2 ≤ 999) (hv2 : v2 ∈ vlanAllocationSet)
    (hne : (s1, v1) ≠ (s2, v2)) :
    generate_ip_for_store s1 v1 ≠ generate_ip_for_store s2 v2 := by
  intro h
  have hf1 := vlan_facts v1 hv1
  have hf2 := vlan_facts v2 hv2
  have hd := congrArg String.data h
  rw [generate_data s1 v1 hs1 hs1b hf1.1, generate_data s2 v2 hs2 hs2b hf2.1] at hd
  simp only [List.cons_append, List.cons.injEq, true_and] at hd
  obtain ⟨hA, hr⟩ := append_dot_inj _ (dot_not_mem_toString _ (by omega))
    (dot_not_mem_toString _ (by omega)) hd
  have hdiv : s1 / 10 = s2 / 10 :=
    toString_injOn_lt100 _ (by omega) _ (by omega) (String.ext hA)
  simp only [List.cons.injEq, and_true] at hr
  have hmod : s1 % 10 = s2 % 10 :=
    digitChar_injOn _ (Nat.mod_lt _ (by omega)) _ (Nat.mod_lt _ (by omega)) hr.1
  have hvd : v1 / 10 = v2 / 10 := digitChar_injOn _ hf1.1 _ hf2.1 hr.2
  have hs : s1 = s2 := by omega
  have hvv : v1 = v2 := by rw [← hf1.2, ← hf2.2, hvd]
  exact hne (by rw [hs, hvv])

theorem generate_ip_injective_witness :
    generate_ip_for_store 1 10 ≠ generate_ip_for_store 999 90 :=
  generate_ip_injective 1 10 999 90 (by decide) (by decide) (by decide)
    (by decide) (by decide) (by decide) (by decide)

theorem addVlansLoop_eq (store_number : Nat) (site_id : String) :
    ∀ (l : List Nat) (db : DB), l.Nodup →
      (∀ r ∈ db.vlan_configs, r.site_id = site_id → r.vlan_number ∉ l) →
      addVlansLoop store_number site_id db l =
        (true, { db with vlan_configs :=
            db.vlan_configs ++ l.map (vlanRowFor store_number site_id) }) := by
  intro l
  induction l with
  | nil =>
    intro db _ _
    simp [addVlansLoop]
  | cons v rest ih =>
    intro db hnd hfr
    have hkept : db.vlan_configs.filter
        (fun r => ¬ (r.site_id = (vlanRowFor store_number site_id v).site_id ∧
          r.vlan_number = (vlanRowFor store_number site_id v).vlan_number)) =
        db.vlan_configs := by
      rw [List.filter_eq_self]
      intro r hrm
      simp only [vlanRowFor, decide_eq_true_eq]
      rintro ⟨hsid, hvn⟩
      exact hfr r hrm hsid (hvn ▸ List.mem_cons_self _ _)
    have hcfg : add_vlan_config db (vlanRowFor store_number site_id v) =
        (true, { db with vlan_configs :=
            db.vlan_configs ++ [vlanRowFor store_number site_id v] }) := by
      simp only [add_vlan_config]
      rw [hkept]
    have hnext : ∀ r ∈ db.vlan_configs ++ [vlanRowFor store_number site_id v],
        r.site_id = site_id → r.vlan_number ∉ rest := by
      intro r hrm hsid
      rcases List.mem_append.mp hrm with hold | hnew
      · exact fun hm => hfr r hold hsid (List.mem_cons_of_mem _ hm)
      · have : r = vlanRowFor store_number site_id v := by simpa using hnew
        subst this
        simpa [vlanRowFor] using (List.nodup_cons.mp hnd).1
    calc addVlansLoop store_number site_id db (v :: rest)
        = addVlansLoop store_number site_id
            { db with vlan_configs :=
                db.vlan_configs ++ [vlanRowFor store_number site_id v] } rest := by
          simp only [addVlansLoop, hcfg]
      _ = (true, { db with vlan_configs :=
            db.vlan_configs ++ (v :: rest).map (vlanRowFor store_number site_id) }) := by
          rw [ih _ (List.nodup_cons.mp hnd).2 hnext]
          simp

/-- Characterisation of a provisioning run with a fresh site_id: it succeeds
and appends exactly one sites row, one network_management row, the nine VLAN
rows, the two switch rows and the three service rows. -/
theorem add_store_with_vlans_eq (db : DB) (store_number : Nat)
    (site_id site_name address : String) (lat lng : Int)
    (hfresh : siteIdFresh db site_id)
    (hne : (switchIPsForStore store_number).1 ≠ (switchIPsForStore store_number).2) :
    add_store_with_vlans db store_number site_id site_name address lat lng =
      (true,
        { sites := db.sites ++
            [siteRowOf (provisionInfo store_number site_id site_name address lat lng)],
          network_management := db.network_management ++
            [nmRowOf (provisionInfo store_number site_id site_name address lat lng)],
          vlan_configs := db.vlan_configs ++
            vlanAllocationSet.map (vlanRowFor store_number site_id),
          switch_ips := db.switch_ips ++
            [{ site_id := site_id, switch_ip := (switchIPsForStore store_number).1 },
             { site_id := site_id, switch_ip := (switchIPsForStore store_number).2 }],
          required_services := db.required_services ++
            [{ site_id := site_id, service_name := "DNS" },
             { site_id := site_id, service_name := "DHCP" },
             { site_id := site_id, service_name := "RADIUS1" }],
          firewall_ips := db.firewall_ips }) := by
  obtain ⟨hsit, hnm, hvl, hsw, hsrv⟩ := hfresh
  have hc1 : db.sites.any
      (fun r => r.site_id = (provisionInfo store_number site_id site_name address lat lng).site_id) =
      false := by
    simp only [List.any_eq_false, decide_eq_true_eq, provisionInfo]
    exact hsit
  have hc2 : db.network_management.any
      (fun r => r.site_id = (provisionInfo store_number site_id site_name address lat lng).site_id) =
      false := by
    simp only [List.any_eq_false, decide_eq_true_eq, provisionInfo]
    exact hnm
  have hloop := addVlansLoop_eq store_number site_id vlanAllocationSet
    { db with
      sites := db.sites ++
        [siteRowOf (provisionInfo store_number site_id site_name address lat lng)],
      network_management := db.network_management ++
        [nmRowOf (provisionInfo store_number site_id site_name address lat lng)] }
    (by decide)
    (by intro r hrm hsid; exact absurd hsid (hvl r hrm))
  rw [add_store_with_vlans, add_site]
  rw [hc1, hc2]
  simp only [Bool.or_self, Bool.false_eq_true, if_false]
  rw [hloop]
  have hksw1 : db.switch_ips.filter
      (fun r => ¬ (r.site_id = site_id ∧ r.switch_ip = (switchIPsForStore store_number).1)) =
      db.switch_ips := by
    rw [List.filter_eq_self]
    intro r hrm
    simp only [decide_eq_true_eq]
    rintro ⟨hsid, _⟩
    exact hsw r hrm hsid
  have hksw2 : db.switch_ips.filter
      (fun r => ¬ (r.site_id = site_id ∧ r.switch_ip = (switchIPsForStore store_number).2)) =
      db.switch_ips := by
    rw [List.filter_eq_self]
    intro r hrm
    simp only [decide_eq_true_eq]
    rintro ⟨hsid, _⟩
    exact hsw r hrm hsid
  have hksrv : ∀ name : String, db.required_services.filter
      (fun r => ¬ (r.site_id = site_id ∧ r.service_name = name)) =
      db.required_services := by
    intro name
    rw [List.filter_eq_self]
    intro r hrm
    simp only [decide_eq_true_eq]
    rintro ⟨hsid, _⟩
    exact hsrv r hrm hsid
  simp only [add_switch_ip, addRequiredService, List.foldl, List.filter_append,
    hksw1, hksw2, hksrv]
  simp [List.filter_cons, hne, List.append_assoc]

/-! ## Switch management addresses -/

set_option maxRecDepth 100000 in
theorem switch_parts_check : ∀ s, s < 1000 → 1 ≤ s →
    pySplitDot (switchIPsForStore s).1 =
      (pySplitDot (generate_ip_for_store s 60)).take 3 ++ ["30"] ∧
    pySplitDot (switchIPsForStore s).2 =
      (pySplitDot (generate_ip_for_store s 60)).take 3 ++ ["41"] := by
  decide

theorem switchIPsForStore_ne (s : Nat) (h1 : 1 ≤ s) (h2 : s ≤ 999) :
    (switchIPsForStore s).1 ≠ (switchIPsForStore s).2 := by
  intro h
  obtain ⟨ha, hb⟩ := switch_parts_check s (by omega) h1
  rw [h, hb] at ha
  simp at ha

/-- C7: the two switch management addresses derived during provisioning (the
inline computation of `add_store_with_vlans`, network_db.py:314-320) are the
VLAN-60 address with only the host octet replaced: same first three octets,
host octet 30 for the first switch and 41 for the second; provisioning with a
fresh site_id stores exactly these two addresses for the site. -/
theorem switch_ips_reuse_vlan60 (s : Nat) (h1 : 1 ≤ s) (h2 : s ≤ 999) :
    (pySplitDot (switchIPsForStore s).1 =
      (pySplitDot (generate_ip_for_store s 60)).take 3 ++ ["30"] ∧
     pySplitDot (switchIPsForStore s).2 =
      (pySplitDot (generate_ip_for_store s 60)).take 3 ++ ["41"]) ∧
    ∀ (db : DB) (site_id site_name address : String) (lat lng : Int),
      siteIdFresh db site_id →
      ((add_store_with_vlans db s site_id site_name address lat lng).2.switch_ips.filter
          (fun r => r.site_id = site_id)).map (fun r => r.switch_ip) =
        [(switchIPsForStore s).1, (switchIPsForStore s).2] := by
  refine ⟨switch_parts_check s (by omega) h1, ?_⟩
  intro db site_id site_name address lat lng hfresh
  rw [add_store_with_vlans_eq db s site_id site_name address lat lng hfresh
    (switchIPsForStore_ne s h1 h2)]
  obtain ⟨-, -, -, hsw, -⟩ := hfresh
  have hold : db.switch_ips.filter (fun r => r.site_id = site_id) = [] := by
    simp only [List.filter_eq_nil_iff, decide_eq_true_eq]
    exact hsw
  simp [List.filter_append, hold]

theorem switch_ips_reuse_vlan60_witness :
    1 ≤ 25 ∧ 25 ≤ 999 ∧
      pySplitDot (switchIPsForStore 25).1 =
        (pySplitDot (generate_ip_for_store 25 60)).take 3 ++ ["30"] :=
  ⟨by decide, by decide, (switch_ips_reuse_vlan60 25 (by decide) (by decide)).1.1⟩

/-! ## Provisioning claims -/

/-- C3 (code-bug evidence): a provisioning run with a fresh site_id into a
database that does not know the store number succeeds and creates exactly the
records the claim requires — 1 sites row, 9 VLAN rows (one per allocation-set
entry, netmask 255.255.255.0, gateway equal to the derived address), 2 switch
rows and 3 service rows, all owned by the site_id — but
`get_complete_site_info store_number` afterwards returns `none`, because the
INSERT of `add_site` omits the `store_number` column and the stored row
carries NULL there. -/
theorem provision_store_code_bug (db : DB) (store_number : Nat)
    (site_id site_name address : String) (lat lng : Int)
    (h1 : 1 ≤ store_number) (h2 : store_number ≤ 999)
    (hfresh : siteIdFresh db site_id)
    (hnostore : ∀ r ∈ db.sites, r.store_number ≠ some store_number) :
    (add_store_with_vlans db store_number site_id site_name address lat lng).1 = true ∧
    ((add_store_with_vlans db store_number site_id site_name address lat lng).2.sites.filter
        (fun r => r.site_id = site_id)).length = 1 ∧
    ((add_store_with_vlans db store_number site_id site_name address lat lng).2.vlan_configs.filter
        (fun r => r.site_id = site_id)).map (fun r => r.vlan_number) = vlanAllocationSet ∧
    (∀ r ∈ (add_store_with_vlans db store_number site_id site_name address lat
        lng).2.vlan_configs.filter (fun r => r.site_id = site_id),
      r.netmask = "255.255.255.0" ∧ r.gateway = r.ip_address ∧
        r.ip_address = generate_ip_for_store store_number r.vlan_number) ∧
    ((add_store_with_vlans db store_number site_id site_name address lat lng).2.switch_ips.filter
        (fun r => r.site_id = site_id)).length = 2 ∧
    ((add_store_with_vlans db store_number site_id site_name address lat
        lng).2.required_services.filter
        (fun r => r.site_id = site_id)).map (fun r => r.service_name) =
      ["DNS", "DHCP", "RADIUS1"] ∧
    get_complete_site_info
      (add_store_with_vlans db store_number site_id site_name address lat lng).2
      store_number = none := by
  have hne := switchIPsForStore_ne store_number h1 h2
  rw [add_store_with_vlans_eq db store_number site_id site_name address lat lng hfresh hne]
  obtain ⟨hsit, hnm, hvl, hsw, hsrv⟩ := hfresh
  have ho1 : db.sites.filter (fun r => r.site_id = site_id) = [] := by
    simp only [List.filter_eq_nil_iff, decide_eq_true_eq]
    exact hsit
  have ho3 : db.vlan_configs.filter (fun r => r.site_id = site_id) = [] := by
    simp only [List.filter_eq_nil_iff, decide_eq_true_eq]
    exact hvl
  have ho4 : db.switch_ips.filter (fun r => r.site_id = site_id) = [] := by
    simp only [List.filter_eq_nil_iff, decide_eq_true_eq]
    exact hsw
  have ho5 : db.required_services.filter (fun r => r.site_id = site_id) = [] := by
    simp only [List.filter_eq_nil_iff, decide_eq_true_eq]
    exact hsrv
  have hvmap : (vlanAllocationSet.map (vlanRowFor store_number site_id)).filter
      (fun r => r.site_id = site_id) = vlanAllocationSet.map (vlanRowFor store_number site_id) := by
    rw [List.filter_eq_self]
    intro r hrm
    obtain ⟨v, hv, rfl⟩ := List.mem_map.mp hrm
    simp [vlanRowFor]
  have hfind : (db.sites ++
      [siteRowOf (provisionInfo store_number site_id site_name address lat lng)]).find?
      (fun r => r.store_number = some store_number) = none := by
    rw [List.find?_append]
    have hleft : db.sites.find? (fun r => r.store_number = some store_number) = none := by
      rw [List.find?_eq_none]
      intro x hx
      simpa using hnostore x hx
    rw [hleft]
    simp [List.find?, siteRowOf, provisionInfo]
  refine ⟨rfl, ?_, ?_, ?_, ?_, ?_, ?_⟩
  · simp [List.filter_append, ho1, siteRowOf, provisionInfo]
  · rw [List.filter_append, ho3, hvmap]
    simp [vlanRowFor, List.map_map, vlanAllocationSet]
  · intro r hrm
    have hmem := List.mem_of_mem_filter hrm
    rcases List.mem_append.mp hmem with hold | hnew
    · have hsid : r.site_id = site_id := by
        have := List.of_mem_filter hrm
        simpa using this
      exact absurd hsid (hvl r hold)
    · obtain ⟨v, hv, rfl⟩ := List.mem_map.mp hnew
      exact ⟨rfl, rfl, rfl⟩
  · simp [List.filter_append, ho4]
  · simp [List.filter_append, ho5]
  · simp [get_complete_site_info, get_site_by_store_number, hfind]

theorem provision_store_code_bug_witness :
    (1 ≤ 42 ∧ 42 ≤ 999 ∧ siteIdFresh DB.empty "site-42" ∧
      ∀ r ∈ DB.empty.sites, r.store_number ≠ some 42) ∧
    get_complete_site_info
      (add_store_with_vlans DB.empty 42 "site-42" "Store 42" "123 Main St" 29 (-98)).2
      42 = none :=
  ⟨⟨by decide, by decide, by simp [siteIdFresh, DB.empty], by simp [DB.empty]⟩,
    (provision_store_code_bug DB.empty 42 "site-42" "Store 42" "123 Main St" 29 (-98)
      (by decide) (by decide) (by simp [siteIdFresh, DB.empty])
      (by simp [DB.empty])).2.2.2.2.2.2⟩

/-- C4 is false on the code: provisioning store 1000 does not fail with any
validation error — `add_store_with_vlans` succeeds, a Site row is written,
and nine VLAN rows are written with out-of-scheme addresses `10.100.0v.1`. -/
theorem provision_store_1000_counterexample :
    (add_store_with_vlans DB.empty 1000 "site-1000" "Store 1000" "addr" 0 0).1 = true ∧
    (add_store_with_vlans DB.empty 1000 "site-1000" "Store 1000" "addr" 0 0).2.sites ≠ [] ∧
    ((add_store_with_vlans DB.empty 1000 "site-1000" "Store 1000" "addr" 0
        0).2.vlan_configs.map (fun r => r.ip_address)) =
      ["10.100.01.1", "10.100.02.1", "10.100.03.1", "10.100.04.1", "10.100.05.1",
       "10.100.06.1", "10.100.07.1", "10.100.08.1", "10.100.09.1"] := by
  refine ⟨rfl, ?_, by decide⟩
  decide

/-- C4 amended: provisioning `store_number = 1000` performs no range
validation and does not fail: with a fresh site_id it returns success and
writes the complete record set (1 sites row, 9 VLAN rows, 2 switch rows,
3 service rows) for the out-of-range store number. -/
theorem provision_store_1000_succeeds (db : DB) (site_id site_name address : String)
    (lat lng : Int) (hfresh : siteIdFresh db site_id) :
    add_store_with_vlans db 1000 site_id site_name address lat lng =
      (true,
        { sites := db.sites ++
            [siteRowOf (provisionInfo 1000 site_id site_name address lat lng)],
          network_management := db.network_management ++
            [nmRowOf (provisionInfo 1000 site_id site_name address lat lng)],
          vlan_configs := db.vlan_configs ++
            vlanAllocationSet.map (vlanRowFor 1000 site_id),
          switch_ips := db.switch_ips ++
            [{ site_id := site_id, switch_ip := (switchIPsForStore 1000).1 },
             { site_id := site_id, switch_ip := (switchIPsForStore 1000).2 }],
          required_services := db.required_services ++
            [{ site_id := site_id, service_name := "DNS" },
             { site_id := site_id, service_name := "DHCP" },
             { site_id := site_id, service_name := "RADIUS1" }],
          firewall_ips := db.firewall_ips }) :=
  add_store_with_vlans_eq db 1000 site_id site_name address lat lng hfresh (by decide)

theorem provision_store_1000_succeeds_witness :
    siteIdFresh DB.empty "site-1000" ∧
      (add_store_with_vlans DB.empty 1000 "site-1000" "Store 1000" "addr" 0 0).1 = true :=
  ⟨by simp [siteIdFresh, DB.empty],
    by rw [provision_store_1000_succeeds DB.empty "site-1000" "Store 1000" "addr" 0 0
      (by simp [siteIdFresh, DB.empty])]⟩

/-- C6 is false on the code: `generate_ip_for_store` rejects nothing — for
the invalid VLAN number 15 it silently returns "10.0.11.1", the very address
allocated to the valid pair (1, 10). -/
theorem allocator_no_validation_counterexample :
    generate_ip_for_store 1 15 = "10.0.11.1" ∧
      generate_ip_for_store 1 10 = "10.0.11.1" :=
  ⟨rfl, rfl⟩

/-- C6 amended: the allocator performs no input validation and is total: an
out-of-set VLAN number yields an address colliding with an in-range
allocation, and a store number ≥ 1000 silently yields an out-of-scheme
address string instead of any error. -/
theorem allocator_total_on_invalid_inputs :
    generate_ip_for_store 1 15 = generate_ip_for_store 1 10 ∧
      generate_ip_for_store 1000 10 = "10.100.01.1" ∧
      generate_ip_for_store 0 10 = "10.0.01.1" := by
  decide

/-! ## Deletion and upsert claims -/

theorem filter_pos_of_filter_neg {α : Type} (p : α → Prop) [DecidablePred p] (l : List α) :
    (l.filter (fun a => ¬ p a)).filter (fun a => p a) = [] := by
  rw [List.filter_eq_nil_iff]
  intro a ha
  have := (List.mem_filter.mp ha).2
  simp only [decide_eq_true_eq] at this ⊢
  exact this

/-- C5: once `delete_store` succeeds for a store, no child record owned by
the deleted site's site_id survives: the VLAN listing is empty, the network
management lookup returns `none`, and the vlan/switch/service/sites tables
hold no row for that site_id. -/
theorem delete_store_cascades (db : DB) (store_number : Nat) (row : SiteRow) (db2 : DB)
    (hfind : db.sites.find? (fun r => r.store_number = some store_number) = some row)
    (hdel : delete_store db store_number = some db2) :
    get_vlans_for_site db2 row.site_id = [] ∧
    get_network_management db2 row.site_id = none ∧
    db2.vlan_configs.filter (fun r => r.site_id = row.site_id) = [] ∧
    db2.switch_ips.filter (fun r => r.site_id = row.site_id) = [] ∧
    db2.required_services.filter (fun r => r.site_id = row.site_id) = [] ∧
    db2.sites.filter (fun r => r.site_id = row.site_id) = [] := by
  rw [delete_store, hfind, Option.some.injEq] at hdel
  subst hdel
  refine ⟨?_, ?_, ?_, ?_, ?_, ?_⟩
  · rw [get_vlans_for_site]
    rw [show (cascadeDeleteSite db row.site_id).vlan_configs =
      db.vlan_configs.filter (fun r => ¬ r.site_id = row.site_id) from rfl]
    rw [filter_pos_of_filter_neg (fun r : VLANConfig => r.site_id = row.site_id)]
    rfl
  · rw [get_network_management]
    have : (cascadeDeleteSite db row.site_id).network_management.find?
        (fun r => r.site_id = row.site_id) = none := by
      rw [List.find?_eq_none]
      intro x hx
      have := (List.mem_filter.mp hx).2
      simpa using this
    rw [this]
  · exact filter_pos_of_filter_neg (fun r : VLANConfig => r.site_id = row.site_id) _
  · exact filter_pos_of_filter_neg (fun r : SwitchIpRow => r.site_id = row.site_id) _
  · exact filter_pos_of_filter_neg (fun r : ServiceRow => r.site_id = row.site_id) _
  · exact filter_pos_of_filter_neg (fun r : SiteRow => r.site_id = row.site_id) _

theorem delete_store_cascades_witness :
    sampleDb.sites.find? (fun r => r.store_number = some 7) = some site7 ∧
    delete_store sampleDb 7 = some (cascadeDeleteSite sampleDb "s7") ∧
    get_vlans_for_site (cascadeDeleteSite sampleDb "s7") site7.site_id = [] :=
  ⟨by decide, by decide,
    (delete_store_cascades sampleDb 7 site7 (cascadeDeleteSite sampleDb "s7")
      (by decide) (by decide)).1⟩

/-- C8: calling the VLAN upsert twice with the same `(site_id, vlan_number)`
key and different ip addresses reports success both times and leaves exactly
one stored row for that key — the one from the second call. -/
theorem upsert_vlan_idempotent (db : DB) (c1 c2 : VLANConfig)
    (hsid : c1.site_id = c2.site_id) (hvn : c1.vlan_number = c2.vlan_number)
    (hip : c1.ip_address ≠ c2.ip_address) :
    (add_vlan_config db c1).1 = true ∧
    (add_vlan_config (add_vlan_config db c1).2 c2).1 = true ∧
    (add_vlan_config (add_vlan_config db c1).2 c2).2.vlan_configs.filter
      (fun r => r.site_id = c2.site_id ∧ r.vlan_number = c2.vlan_number) = [c2] := by
  refine ⟨rfl, rfl, ?_⟩
  simp only [add_vlan_config, List.filter_append]
  rw [show (List.filter (fun r =>
      ¬ (r.site_id = c2.site_id ∧ r.vlan_number = c2.vlan_number))
      [c1] : List VLANConfig) = [] from by simp [hsid, hvn]]
  rw [filter_pos_of_filter_neg
    (fun r : VLANConfig => r.site_id = c2.site_id ∧ r.vlan_number = c2.vlan_number)]
  simp

theorem upsert_vlan_idempotent_witness :
    ({ site_id := "s", vlan_number := 10, svi_name := "a", ip_address := "10.0.11.1",
       netmask := "m", gateway := "g" } : VLANConfig).ip_address ≠
      ({ site_id := "s", vlan_number := 10, svi_name := "b", ip_address := "10.0.12.1",
         netmask := "m2", gateway := "g2" } : VLANConfig).ip_address ∧
    (add_vlan_config
        (add_vlan_config DB.empty
          { site_id := "s", vlan_number := 10, svi_name := "a",
            ip_address := "10.0.11.1", netmask := "m", gateway := "g" }).2
        { site_id := "s", vlan_number := 10, svi_name := "b",
          ip_address := "10.0.12.1", netmask := "m2", gateway := "g2" }).2.vlan_configs.filter
      (fun r => r.site_id = "s" ∧ r.vlan_number = 10) =
      [{ site_id := "s", vlan_number := 10, svi_name := "b",
         ip_address := "10.0.12.1", netmask := "m2", gateway := "g2" }] :=
  ⟨by decide,
    (upsert_vlan_idempotent DB.empty
      { site_id := "s", vlan_number := 10, svi_name := "a",
        ip_address := "10.0.11.1", netmask := "m", gateway := "g" }
      { site_id := "s", vlan_number := 10, svi_name := "b",
        ip_address := "10.0.12.1", netmask := "m2", gateway := "g2" }
      rfl rfl (by decide)).2.2⟩

/-! ## Search and per-store VLAN endpoint claims -/

theorem mem_distinctRows (x : SearchResult) : ∀ l : List SearchResult,
    x ∈ distinctRows l ↔ x ∈ l := by
  intro l
  induction l with
  | nil => simp [distinctRows]
  | cons a as ih =>
    simp only [distinctRows, List.mem_cons]
    constructor
    · rintro (rfl | hx)
      · exact Or.inl rfl
      · exact Or.inr (ih.mp (List.mem_of_mem_filter hx))
    · rintro (rfl | hx)
      · exact Or.inl rfl
      · by_cases hxa : x = a
        · exact Or.inl hxa
        · refine Or.inr (List.mem_filter.mpr ⟨ih.mpr hx, ?_⟩)
          simpa using hxa

theorem mem_search_iff (db : DB) (f1 f2 : Option Nat) (f3 f4 : Option String)
    (x : SearchResult) :
    x ∈ search db f1 f2 f3 f4 ↔
      ∃ row ∈ leftJoinVlans db, matchesSearchRow f1 f2 f3 f4 row = true ∧
        x = { store_number := row.1.store_number, site_name := row.1.site_name,
              address := row.1.address } := by
  unfold search
  rw [mem_distinctRows]
  simp only [List.mem_map, List.mem_filter]
  constructor
  · rintro ⟨row, ⟨hrow, hpred⟩, rfl⟩
    exact ⟨row, hrow, hpred, rfl⟩
  · rintro ⟨row, hrow, hpred, rfl⟩
    exact ⟨row, ⟨hrow, hpred⟩, rfl⟩

theorem leftJoinVlans_fst (db : DB) : ∀ row ∈ leftJoinVlans db, row.1 ∈ db.sites := by
  intro row hrow
  unfold leftJoinVlans at hrow
  obtain ⟨s, hs, hrow⟩ := List.mem_flatMap.mp hrow
  cases h : db.vlan_configs.filter (fun v => v.site_id = s.site_id) with
  | nil =>
    rw [h] at hrow
    simp only [List.mem_singleton] at hrow
    rw [hrow]
    exact hs
  | cons v vs =>
    rw [h] at hrow
    obtain ⟨v1, _, rfl⟩ := List.mem_map.mp hrow
    exact hs

theorem leftJoinVlans_surj (db : DB) : ∀ s ∈ db.sites,
    ∃ row ∈ leftJoinVlans db, row.1 = s := by
  intro s hs
  unfold leftJoinVlans
  cases h : db.vlan_configs.filter (fun v => v.site_id = s.site_id) with
  | nil =>
    refine ⟨(s, none), List.mem_flatMap.mpr ⟨s, hs, ?_⟩, rfl⟩
    rw [h]
    simp
  | cons v vs =>
    refine ⟨(s, some v), List.mem_flatMap.mpr ⟨s, hs, ?_⟩, rfl⟩
    rw [h]
    simp

/-- C9 amended: the search handler combines its present filters with logical
AND — adding any one of the four filters only narrows the result set — but a
request with no filter present is NOT rejected: it returns the projection of
the full sites list (one entry per store, duplicates collapsed). -/
theorem search_filters_conjunctive (db : DB) (store vlan : Option Nat)
    (ip city : Option String) :
    (∀ x ∈ search db store vlan ip city, x ∈ search db none vlan ip city) ∧
    (∀ x ∈ search db store vlan ip city, x ∈ search db store none ip city) ∧
    (∀ x ∈ search db store vlan ip city, x ∈ search db store vlan none city) ∧
    (∀ x ∈ search db store vlan ip city, x ∈ search db store vlan ip none) ∧
    (∀ x, x ∈ search db none none none none ↔
      ∃ s ∈ db.sites,
        x = { store_number := s.store_number, site_name := s.site_name,
              address := s.address }) := by
  have hweak : ∀ row, matchesSearchRow store vlan ip city row = true →
      matchesSearchRow none vlan ip city row = true ∧
      matchesSearchRow store none ip city row = true ∧
      matchesSearchRow store vlan none city row = true ∧
      matchesSearchRow store vlan ip none row = true := by
    intro row h
    simp only [matchesSearchRow, Bool.and_eq_true] at h ⊢
    obtain ⟨⟨⟨h1, h2⟩, h3⟩, h4⟩ := h
    simp [h1, h2, h3, h4]
  refine ⟨?_, ?_, ?_, ?_, ?_⟩
  · intro x hx
    rw [mem_search_iff] at hx ⊢
    obtain ⟨row, hrow, hpred, rfl⟩ := hx
    exact ⟨row, hrow, (hweak row hpred).1, rfl⟩
  · intro x hx
    rw [mem_search_iff] at hx ⊢
    obtain ⟨row, hrow, hpred, rfl⟩ := hx
    exact ⟨row, hrow, (hweak row hpred).2.1, rfl⟩
  · intro x hx
    rw [mem_search_iff] at hx ⊢
    obtain ⟨row, hrow, hpred, rfl⟩ := hx
    exact ⟨row, hrow, (hweak row hpred).2.2.1, rfl⟩
  · intro x hx
    rw [mem_search_iff] at hx ⊢
    obtain ⟨row, hrow, hpred, rfl⟩ := hx
    exact ⟨row, hrow, (hweak row hpred).2.2.2, rfl⟩
  · intro x
    rw [mem_search_iff]
    constructor
    · rintro ⟨row, hrow, -, rfl⟩
      exact ⟨row.1, leftJoinVlans_fst db row hrow, rfl⟩
    · rintro ⟨s, hs, rfl⟩
      obtain ⟨row, hrow, hfst⟩ := leftJoinVlans_surj db s hs
      refine ⟨row, hrow, ?_, by rw [hfst]⟩
      simp [matchesSearchRow]

theorem search_filters_conjunctive_witness :
    ({ store_number := some 7, site_name := "Store 7",
       address := "700 Main St" } : SearchResult) ∈
        search sampleDb (some 7) none none none ∧
    ({ store_number := some 7, site_name := "Store 7",
       address := "700 Main St" } : SearchResult) ∈
        search sampleDb none none none none :=
  ⟨by decide,
    (search_filters_conjunctive sampleDb (some 7) none none none).1 _ (by decide)⟩

/-- C9 is false as stated: on a database holding stores 7 and 8, a search
request with no filter present returns the full store list instead of being
rejected as a degenerate query. -/
theorem search_no_filters_counterexample :
    search sampleDb none none none none =
      [{ store_number := some 7, site_name := "Store 7", address := "700 Main St" },
       { store_number := some 8, site_name := "Store 8", address := "800 Oak Ave" }] := by
  decide

/-- C10: the GET /api/stores/{n}/vlans handler answers 200 with an empty list
both when the store does not exist and when it exists without VLAN rows, and
its status is always 200 (never 404) — unlike GET /api/stores/{n}, which
answers 404 for the same missing store. -/
theorem store_vlans_endpoint_empty_list (db : DB) (store_number : Nat) :
    (get_store_vlans db store_number).1 = 200 ∧
    (get_site_by_store_number db store_number = none →
      get_store_vlans db store_number = (200, []) ∧
      get_store_details db store_number = (404, none)) ∧
    (∀ info, get_complete_site_info db store_number = some info → info.vlans = [] →
      get_store_vlans db store_number = (200, [])) := by
  refine ⟨?_, ?_, ?_⟩
  · unfold get_store_vlans
    cases get_complete_site_info db store_number with
    | none => rfl
    | some info =>
      by_cases hv : info.vlans.isEmpty <;> simp [hv]
  · intro h
    unfold get_store_vlans get_store_details get_complete_site_info
    rw [h]
    exact ⟨rfl, rfl⟩
  · intro info hinfo hvlans
    unfold get_store_vlans
    rw [hinfo]
    simp [hvlans]

theorem store_vlans_endpoint_empty_list_witness :
    get_site_by_store_number sampleDb 999 = none ∧
    (get_store_vlans sampleDb 999 = (200, []) ∧
      get_store_details sampleDb 999 = (404, none)) :=
  ⟨by decide, (store_vlans_endpoint_empty_list sampleDb 999).2.1 (by decide)⟩

end NetTools
